import Mathlib

/-!
Verification development for the OpenThread Backbone Router registration
manager (`src/core/backbone_router/bbr_manager.cpp`).

The embedding models the production build (the compile-time
`OPENTHREAD_CONFIG_REFERENCE_DEVICE_ENABLE` test hooks are disabled).
The two proxy tables, the CoAP transport and the address resolver are
collaborators whose sources are not part of the sampled repository; they
enter the model through their contracts (abstract operation functions in
the environment records), exactly as the handler code calls them.
-/

namespace BackboneRouter

/-- An IPv6 address, modelled abstractly as a natural number. The low 64
bits play the role of the interface identifier. -/
abbrev Address := Nat

/-- Interface identifier of an address (`Ip6::Address::GetIid`): the low
64 bits of the IPv6 address. -/
def Address.iid (a : Address) : Nat := a % (2 ^ 64)

/-- Modelled from the spec: `kIPv6AddressesNumMax`, the maximum number of
addresses per MLR request (declared in `bbr_manager.hpp`, which is not
among the sampled sources; the spec names it as a fixed constant). -/
def kIPv6AddressesNumMax : Nat := 15

/-- Modelled from the spec: `kIPv6AddressesNumMin`, the minimum number of
addresses per backbone forward notification (declared in
`bbr_manager.hpp`, not among the sampled sources). -/
def kIPv6AddressesNumMin : Nat := 1

/-- Modelled from the spec: `Mle::kMlrTimeoutMin` (seconds), lower bound
of the MLR timeout clamp (declared in `thread/mle_types.hpp`, not among
the sampled sources). -/
def kMlrTimeoutMin : Nat := 300

/-- Modelled from the spec: `Mle::kMlrTimeoutMax` (seconds), upper bound
of the MLR timeout clamp (declared in `thread/mle_types.hpp`, not among
the sampled sources). -/
def kMlrTimeoutMax : Nat := 2147483

/-- Size in bytes of an `Ip6::Address` (`sizeof(Ip6::Address)`). -/
def addressSize : Nat := 16

/-- The C `UINT32_MAX` constant. -/
def UINT32_MAX : Nat := 4294967295

/-- Outcome of `MulticastListenersTable::Add`, as the handler's `switch`
distinguishes it: `OT_ERROR_NONE`, `OT_ERROR_INVALID_ARGS`, or
`OT_ERROR_NO_BUFS` (any other value trips `OT_ASSERT(false)`, so the
table contract excludes it). -/
inductive AddOutcome
  | ok
  | invalidArgs
  | noBufs
deriving DecidableEq, Repr

/-- The MLR status codes of `ThreadStatusTlv::MlrStatus`. -/
inductive MlrStatus
  | success
  | invalid
  | noPersistent
  | noResources
  | bbrNotPrimary
  | generalFailure
deriving DecidableEq, Repr

/-- The DUA status codes of `ThreadStatusTlv::DuaStatus`. -/
inductive DuaStatus
  | success
  | duplicate
  | noResources
  | notPrimary
  | invalid
  | generalFailure
deriving DecidableEq, Repr

/-- Outcome of `NdProxyTable::Register` as the handler's `switch`
distinguishes it: `OT_ERROR_NONE`, `OT_ERROR_DUPLICATED`,
`OT_ERROR_NO_BUFS`, or any other error (mapped to general failure). -/
inductive RegisterOutcome
  | ok
  | duplicated
  | noBufs
  | otherError
deriving DecidableEq, Repr

/-- An inbound MLR request message, reduced to the observations the
handler makes of it: the confirmable-POST check, the three TLV lookups
(`FindUint16Tlv kCommissionerSessionId`, `FindUint32Tlv kTimeout`,
`FindTlvValueOffset kIPv6Addresses`), and the address reads inside the
found addresses TLV. `readAddress i` is the address that
`aMessage.Read(addressesOffset + 16 * i, address)` yields. -/
structure MlrMessage where
  isConfirmablePost : Bool
  commissionerSessionIdTlv : Option Nat
  timeoutTlv : Option Nat
  addressesTlvLength : Option Nat
  readAddress : Nat → Address

/-- Environment of the MLR handler: the role flag
(`Local::IsPrimary`), the commissioner session id registered in the
leader network data (`GetCommissioningDataSubTlv`, `none` when the
sub-TLV is absent), the default MLR timeout from the leader BBR config
(`config.mMlrTimeout`), the current time (`TimerMilli::GetNow`), and the
multicast listeners table contract: `add t a e` returns the table after
`Add(a, e)` together with the outcome, `remove t a` the table after
`Remove(a)`. The table representation `T` is abstract (the table source
is a collaborator outside the sampled repository). -/
structure MlrEnv (T : Type) where
  isPrimary : Bool
  leaderSessionId : Option Nat
  defaultMlrTimeout : Nat
  now : Nat
  add : T → Address → Nat → T × AddOutcome
  remove : T → Address → T

/-- State threaded through the per-address loop of
`HandleMulticastListenerRegistration`: the table, the sticky `status`
variable, the two counters `failedAddressNum` / `successAddressNum`, and
the single fixed `addresses[kIPv6AddressesNumMax]` array that the failed
list (front-filled) and the success list (back-filled) share. -/
structure LoopState (T : Type) where
  table : T
  status : MlrStatus
  failedNum : Nat
  successNum : Nat
  buf : List Address

/-- One iteration of the per-address loop: `timeout == 0` removes the
address; otherwise the table `Add` outcome updates the sticky status,
appends the address to the failed (front) or success (back) region of the
shared array, and bumps the matching counter. -/
def step {T : Type} (env : MlrEnv T) (timeout expire : Nat) (s : LoopState T)
    (a : Address) : LoopState T :=
  if timeout = 0 then
    { s with table := env.remove s.table a }
  else
    match env.add s.table a expire with
    | (t', AddOutcome.ok) =>
        { s with
          table := t'
          successNum := s.successNum + 1
          buf := s.buf.set (kIPv6AddressesNumMax - (s.successNum + 1)) a }
    | (t', AddOutcome.invalidArgs) =>
        { s with
          table := t'
          status := if s.status = MlrStatus.success then MlrStatus.invalid else s.status
          failedNum := s.failedNum + 1
          buf := s.buf.set s.failedNum a }
    | (t', AddOutcome.noBufs) =>
        { s with
          table := t'
          status := if s.status = MlrStatus.success then MlrStatus.noResources else s.status
          failedNum := s.failedNum + 1
          buf := s.buf.set s.failedNum a }

/-- The address list the loop iterates over: for a well-formed addresses
TLV of payload length `len` (a multiple of 16), the reads at offsets
`0, 16, ...` yield the elements `readAddress 0, ..., readAddress (len/16 - 1)`. -/
def requestAddrs (msg : MlrMessage) (len : Nat) : List Address :=
  (List.range (len / addressSize)).map msg.readAddress

/-- Loop state at entry of the per-address loop: status `kMlrSuccess`,
both counters zero, the (uninitialized in C, here zero-filled)
`addresses` array. -/
def mlrInitState {T : Type} (t0 : T) : LoopState T :=
  ⟨t0, MlrStatus.success, 0, 0, List.replicate kIPv6AddressesNumMax 0⟩

/-- Result of handling one MLR request. `response` is `some (st, failed)`
when the handler reaches `exit` with `error == OT_ERROR_NONE` and so
calls `SendMulticastListenerRegistrationResponse` with top-level status
`st` and failed-address list `failed`; it is `none` when the request is
dropped. `backbone` is `some (succ, timeout)` when
`successAddressNum > 0` makes the handler call
`SendBackboneMulticastListenerRegistration` with the address block
`&addresses[kIPv6AddressesNumMax - successAddressNum]` (listed here in
increasing memory order) and the effective timeout. -/
structure MlrResult (T : Type) where
  table : T
  response : Option (MlrStatus × List Address)
  backbone : Option (List Address × Nat)

/-- The tail of `HandleMulticastListenerRegistration` once validation has
passed with addresses-TLV payload length `len` and effective timeout
`timeout`: run the per-address loop, then send the response and, when at
least one address succeeded, the backbone notification. -/
def mlrLoopResult {T : Type} (env : MlrEnv T) (msg : MlrMessage) (t0 : T)
    (len timeout : Nat) : MlrResult T :=
  let expire := env.now + timeout * 1000
  let s := (requestAddrs msg len).foldl (step env timeout expire) (mlrInitState t0)
  { table := s.table
    response := some (s.status, s.buf.take s.failedNum)
    backbone :=
      if 0 < s.successNum then
        some (s.buf.drop (kIPv6AddressesNumMax - s.successNum), timeout)
      else none }

/-- The commissioner-session check of the MLR handler: when the request
carries a commissioner-session-id TLV, the leader network data must hold
a commissioner-session-id sub-TLV with the same value; a request without
the TLV passes. -/
def sessionMatches (leaderSessionId : Option Nat) (msg : MlrMessage) : Bool :=
  match msg.commissionerSessionIdTlv with
  | some sid => leaderSessionId = some sid
  | none => true

/-- Embedding of `Manager::HandleMulticastListenerRegistration`. Each
early `VerifyOrExit` produces the corresponding exit-path result: a parse
error suppresses the response; a status-setting failure sends a response
with that status, empty failed list, and no backbone notification (both
counters are still zero on those paths). -/
def handleMulticastListenerRegistration {T : Type} (env : MlrEnv T)
    (msg : MlrMessage) (t0 : T) : MlrResult T :=
  if ¬ msg.isConfirmablePost then
    { table := t0, response := none, backbone := none }
  else if ¬ env.isPrimary then
    { table := t0, response := some (MlrStatus.bbrNotPrimary, []), backbone := none }
  else
    if ¬ sessionMatches env.leaderSessionId msg then
      { table := t0, response := some (MlrStatus.generalFailure, []), backbone := none }
    else
      let processTimeoutTlv :=
        msg.commissionerSessionIdTlv.isSome ∧ msg.timeoutTlv.isSome
      match msg.addressesTlvLength with
      | none => { table := t0, response := none, backbone := none }
      | some len =>
        if ¬ len % addressSize = 0 then
          { table := t0, response := some (MlrStatus.generalFailure, []), backbone := none }
        else if ¬ len / addressSize ≤ kIPv6AddressesNumMax then
          { table := t0, response := some (MlrStatus.generalFailure, []), backbone := none }
        else if ¬ processTimeoutTlv then
          mlrLoopResult env msg t0 len env.defaultMlrTimeout
        else
          let tval := msg.timeoutTlv.getD 0
          if ¬ tval < UINT32_MAX then
            { table := t0, response := some (MlrStatus.noPersistent, []), backbone := none }
          else
            let timeout :=
              if tval ≠ 0 then max (min tval kMlrTimeoutMax) kMlrTimeoutMin else tval
            mlrLoopResult env msg t0 len timeout

/-- An inbound DUA registration request, reduced to the observations the
handler makes of it: whether the source address's interface identifier is
a routing locator (`GetPeerAddr().GetIid().IsRoutingLocator()`), the
locator it encodes (`GetIid().GetLocator()`), the confirmable-POST check,
and the three TLV lookups (`kTarget`, `kMeshLocalEid`,
`kLastTransactionTime`). -/
structure DuaMessage where
  srcIsRloc : Bool
  srcLocator : Nat
  isConfirmablePost : Bool
  targetTlv : Option Address
  meshLocalIidTlv : Option Nat
  lastTransactionTimeTlv : Option Nat

/-- Environment of the DUA handler: the role flag, the domain-unicast
prefix test (`Leader::IsDomainUnicast`), and the ND proxy table contract:
`register p targetIid mlIid rloc ltt` returns the table after
`NdProxyTable::Register` together with the outcome the handler's `switch`
sees. The table representation `P` is abstract (the table source is a
collaborator outside the sampled repository). -/
structure DuaEnv (P : Type) where
  isPrimary : Bool
  isDomainUnicast : Address → Bool
  register : P → Nat → Nat → Nat → Option Nat → P × RegisterOutcome

/-- Result of handling one DUA request: the proxy table and, when the
handler reaches `exit` with `error == OT_ERROR_NONE`,
the `SendDuaRegistrationResponse` call's status and echoed target. -/
structure DuaResult (P : Type) where
  proxy : P
  response : Option (DuaStatus × Address)

/-- Embedding of `Manager::HandleDuaRegistration`. A non-routing-locator
source exits with `OT_ERROR_DROP`, a non-confirmable-POST with
`OT_ERROR_PARSE`, a missing target or mesh-local-IID TLV with the
`FindTlv` error — all of which suppress the response. After the primary
and domain-prefix checks, the register outcome maps to the DUA status. -/
def handleDuaRegistration {P : Type} (env : DuaEnv P) (msg : DuaMessage)
    (p0 : P) : DuaResult P :=
  if ¬ msg.srcIsRloc then
    { proxy := p0, response := none }
  else if ¬ msg.isConfirmablePost then
    { proxy := p0, response := none }
  else
    match msg.targetTlv with
    | none => { proxy := p0, response := none }
    | some target =>
      match msg.meshLocalIidTlv with
      | none => { proxy := p0, response := none }
      | some mlIid =>
        if ¬ env.isPrimary then
          { proxy := p0, response := some (DuaStatus.notPrimary, target) }
        else if ¬ env.isDomainUnicast target then
          { proxy := p0, response := some (DuaStatus.invalid, target) }
        else
          let r := env.register p0 (Address.iid target) mlIid msg.srcLocator
            msg.lastTransactionTimeTlv
          let st :=
            match r.2 with
            | RegisterOutcome.ok => DuaStatus.success
            | RegisterOutcome.duplicated => DuaStatus.duplicate
            | RegisterOutcome.noBufs => DuaStatus.noResources
            | RegisterOutcome.otherError => DuaStatus.generalFailure
          { proxy := r.1, response := some (st, target) }

/-- Modelled from the spec: one entry of the ND proxy table —
`{ targetIid, meshLocalIid, ownerLocator, lastTransactionTime }` (the
table source is a collaborator outside the sampled repository). -/
structure ProxyEntry where
  targetIid : Nat
  meshLocalIid : Nat
  ownerLocator : Nat
  lastTransactionTime : Option Nat
deriving DecidableEq, Repr

/-- The backbone router state values of `otBackboneRouterState` that
`Local::GetState` can return. -/
inductive BbrState
  | disabled
  | secondary
  | primary
deriving DecidableEq, Repr

/-- The manager-owned state the notifier-event handler and the
forward-decision query touch: the multicast listeners table (spec
contract: a list of (address, expiry) pairs), the ND proxy table, the
expiry timer's running flag, the two mesh-side resource registrations,
and the backbone TMF agent's running flag. -/
structure ManagerState where
  listeners : List (Address × Nat)
  proxy : List ProxyEntry
  timerRunning : Bool
  mlrResourceRegistered : Bool
  duaResourceRegistered : Bool
  backboneRunning : Bool
deriving DecidableEq, Repr

/-- Embedding of `Manager::HandleNotifierEvents` for the
`kEventThreadBackboneRouterStateChanged` event: when the local backbone
router state is `DISABLED`, remove both resources, stop the timer, clear
the multicast listeners table, and stop the backbone TMF agent; otherwise
add both resources, start the timer if it is not running, and start the
backbone TMF agent. A start/stop failure of the agent is only logged.
Events without the state-changed flag leave the state untouched. -/
def handleNotifierEvents (containsBbrStateChanged : Bool) (localState : BbrState)
    (s : ManagerState) : ManagerState :=
  if containsBbrStateChanged then
    if localState = BbrState.disabled then
      { s with
        mlrResourceRegistered := false
        duaResourceRegistered := false
        timerRunning := false
        listeners := []
        backboneRunning := false }
    else
      { s with
        mlrResourceRegistered := true
        duaResourceRegistered := true
        timerRunning := true
        backboneRunning := true }
  else s

/-- Modelled from the spec: `NdProxyTable::IsRegistered` on the spec's
proxy-table contract — some entry's target identifier equals the queried
interface identifier. -/
def isRegistered (proxy : List ProxyEntry) (iid : Nat) : Bool :=
  proxy.any fun e => e.targetIid = iid

/-- Environment of `ShouldForwardDuaToBackbone`: the role flag, the
domain-prefix test, the mesh address resolver
(`AddressResolver::Resolve` with address queries disallowed; `none` when
it returns an error, `some rloc16` otherwise), and this router's own
short address (`MleRouter::GetRloc16`). -/
structure SfdEnv where
  isPrimary : Bool
  isDomainUnicast : Address → Bool
  resolve : Address → Option Nat
  ownRloc16 : Nat

/-- Embedding of `Manager::ShouldForwardDuaToBackbone`. The body is a
chain of `VerifyOrExit` guards and a resolver query; it writes no
manager-owned state, so the state component of the result is the input
state unchanged. -/
def shouldForwardDuaToBackbone (env : SfdEnv) (s : ManagerState)
    (a : Address) : Bool × ManagerState :=
  let forward : Bool :=
    if ¬ env.isPrimary then false
    else if ¬ env.isDomainUnicast a then false
    else if isRegistered s.proxy (Address.iid a) then false
    else
      match env.resolve a with
      | none => true
      | some rloc16 => rloc16 = env.ownRloc16
  (forward, s)

/-- Trace of the table `Add` calls the per-address loop makes when the
effective timeout is non-zero: for each address in order, the outcome the
table returned, threading the table through. The second component is the
final table. -/
def runAdds {T : Type} (add : T → Address → Nat → T × AddOutcome)
    (expire : Nat) : T → List Address → List (Address × AddOutcome) × T
  | t, [] => ([], t)
  | t, a :: rest =>
    let r := add t a expire
    let q := runAdds add expire r.1 rest
    ((a, r.2) :: q.1, q.2)

/-- Addresses of a trace whose `Add` outcome was success, in trace order. -/
def succAddrs : List (Address × AddOutcome) → List Address
  | [] => []
  | (a, AddOutcome.ok) :: r => a :: succAddrs r
  | (_, AddOutcome.invalidArgs) :: r => succAddrs r
  | (_, AddOutcome.noBufs) :: r => succAddrs r

/-- Addresses of a trace whose `Add` outcome was a failure, in trace order. -/
def failAddrs : List (Address × AddOutcome) → List Address
  | [] => []
  | (_, AddOutcome.ok) :: r => failAddrs r
  | (a, AddOutcome.invalidArgs) :: r => a :: failAddrs r
  | (a, AddOutcome.noBufs) :: r => a :: failAddrs r

/-- The status an `Add` outcome maps to in the handler's `switch`. -/
def classifyOutcome : AddOutcome → MlrStatus
  | AddOutcome.ok => MlrStatus.success
  | AddOutcome.invalidArgs => MlrStatus.invalid
  | AddOutcome.noBufs => MlrStatus.noResources

/-- The sticky status reducer: starting from `st`, each outcome overwrites
the status only while it is still `kMlrSuccess`. -/
def stickyApply : MlrStatus → List (Address × AddOutcome) → MlrStatus
  | st, [] => st
  | st, (_, o) :: r =>
    stickyApply (if st = MlrStatus.success then classifyOutcome o else st) r

/-- The status class of the first non-success outcome of a trace
(`success` when every outcome is a success) — the claim's reading of the
response status. -/
def firstErrStatus : List (Address × AddOutcome) → MlrStatus
  | [] => MlrStatus.success
  | (_, AddOutcome.ok) :: r => firstErrStatus r
  | (_, AddOutcome.invalidArgs) :: _ => MlrStatus.invalid
  | (_, AddOutcome.noBufs) :: _ => MlrStatus.noResources

section ListLemmas

variable {α : Type}

/-- Setting an index at or beyond the taken region leaves a take alone. -/
theorem take_set_of_le (x : α) :
    ∀ (l : List α) (i j : Nat), i ≤ j → (l.set j x).take i = l.take i
  | [], _, _, _ => by simp
  | _ :: _, 0, _, _ => by simp
  | a :: l, i + 1, j + 1, h => by
    simp only [List.set_cons_succ, List.take_succ_cons]
    rw [take_set_of_le x l i j (Nat.le_of_succ_le_succ h)]
  | _ :: _, i + 1, 0, h => absurd h (by omega)

/-- Setting an index strictly below the dropped region leaves a drop alone. -/
theorem drop_set_of_lt (x : α) :
    ∀ (l : List α) (i j : Nat), j < i → (l.set j x).drop i = l.drop i
  | [], _, _, _ => by simp
  | _ :: _, i + 1, 0, _ => by simp
  | a :: l, i + 1, j + 1, h => by
    simp only [List.set_cons_succ, List.drop_succ_cons]
    rw [drop_set_of_lt x l i j (Nat.lt_of_succ_lt_succ h)]
  | _ :: _, 0, j, h => absurd h (by omega)

/-- Taking one past a just-set index appends the new element. -/
theorem take_set_self (x : α) :
    ∀ (l : List α) (i : Nat), i < l.length → (l.set i x).take (i + 1) = l.take i ++ [x]
  | [], i, h => by simp at h
  | a :: l, 0, _ => by simp
  | a :: l, i + 1, h => by
    simp only [List.set_cons_succ, List.take_succ_cons, List.cons_append]
    rw [take_set_self x l i (by simpa using Nat.lt_of_succ_lt_succ h)]

/-- Dropping from a just-set index exposes the new element at the head. -/
theorem drop_set_self (x : α) :
    ∀ (l : List α) (i : Nat), i < l.length → (l.set i x).drop i = x :: l.drop (i + 1)
  | [], i, h => by simp at h
  | a :: l, 0, _ => by simp
  | a :: l, i + 1, h => by
    simp only [List.set_cons_succ, List.drop_succ_cons]
    rw [drop_set_self x l i (by simpa using Nat.lt_of_succ_lt_succ h)]

end ListLemmas

/-- The effective timeout the handler computes before the per-address
loop: the leader-config default when no session-tagged timeout TLV is
processed; otherwise `none` when the TLV value is not below `UINT32_MAX`
(the `kMlrNoPersistent` exit), the value itself when it is zero, and the
value clamped into `[kMlrTimeoutMin, kMlrTimeoutMax]` otherwise. -/
def effectiveTimeout {T : Type} (env : MlrEnv T) (msg : MlrMessage) : Option Nat :=
  if msg.commissionerSessionIdTlv.isSome ∧ msg.timeoutTlv.isSome then
    let tval := msg.timeoutTlv.getD 0
    if tval < UINT32_MAX then
      some (if tval ≠ 0 then max (min tval kMlrTimeoutMax) kMlrTimeoutMin else tval)
    else none
  else some env.defaultMlrTimeout

/-- A request that passes every pre-loop check runs the per-address loop
at the effective timeout: the handler result is exactly `mlrLoopResult`. -/
theorem handleMlr_reaches_loop {T : Type} (env : MlrEnv T) (msg : MlrMessage)
    (t0 : T) (len tmo : Nat)
    (h1 : msg.isConfirmablePost = true)
    (h2 : env.isPrimary = true)
    (h3 : sessionMatches env.leaderSessionId msg = true)
    (h4 : msg.addressesTlvLength = some len)
    (h5 : len % addressSize = 0)
    (h6 : len / addressSize ≤ kIPv6AddressesNumMax)
    (h7 : effectiveTimeout env msg = some tmo) :
    handleMulticastListenerRegistration env msg t0 = mlrLoopResult env msg t0 len tmo := by
  unfold handleMulticastListenerRegistration
  rw [h4]
  by_cases hp : msg.commissionerSessionIdTlv.isSome ∧ msg.timeoutTlv.isSome
  · unfold effectiveTimeout at h7
    rw [if_pos hp] at h7
    by_cases hv : msg.timeoutTlv.getD 0 < UINT32_MAX
    · rw [if_pos hv] at h7
      simp only [Option.some.injEq] at h7
      simp [h1, h2, h3, h5, h6, hp, hv, h7]
    · rw [if_neg hv] at h7
      exact absurd h7 (by simp)
  · unfold effectiveTimeout at h7
    rw [if_neg hp] at h7
    simp only [Option.some.injEq] at h7
    simp [h1, h2, h3, h5, h6, hp, h7]

/-- With effective timeout zero, the loop only removes addresses: status,
counters and the shared array stay at their initial values and the table
is the fold of `Remove` over the request addresses. -/
theorem foldl_step_zero_spec {T : Type} (env : MlrEnv T) (expire : Nat) :
    ∀ (l : List Address) (s : LoopState T),
      l.foldl (step env 0 expire) s = { s with table := l.foldl env.remove s.table } := by
  intro l
  induction l with
  | nil => intro s; rfl
  | cons a rest ih =>
    intro s
    rw [List.foldl_cons, List.foldl_cons]
    have hstep : step env 0 expire s a = { s with table := env.remove s.table a } := by
      simp [step]
    rw [hstep]
    exact ih _

/-- Applying an `ok` outcome to the sticky status leaves it unchanged. -/
theorem sticky_ok (st : MlrStatus) :
    (if st = MlrStatus.success then classifyOutcome AddOutcome.ok else st) = st := by
  by_cases h : st = MlrStatus.success
  · rw [if_pos h, h]; rfl
  · rw [if_neg h]

/-- Characterization of the per-address loop for a non-zero effective
timeout: the fold over `step` realizes the `runAdds` trace — the final
table is the trace's table, each counter advances by the matching
trace-list length, the status is the sticky reduction of the trace over
the initial status, and the shared array's front region extends by the
failed addresses in trace order while its back region extends by the
successful addresses in reverse trace order. -/
theorem foldl_step_spec {T : Type} (env : MlrEnv T) (timeout expire : Nat)
    (ht : ¬ timeout = 0) :
    ∀ (l : List Address) (s : LoopState T),
      s.buf.length = kIPv6AddressesNumMax →
      s.failedNum + s.successNum + l.length ≤ kIPv6AddressesNumMax →
      (l.foldl (step env timeout expire) s).table
          = (runAdds env.add expire s.table l).2 ∧
      (l.foldl (step env timeout expire) s).failedNum
          = s.failedNum + (failAddrs (runAdds env.add expire s.table l).1).length ∧
      (l.foldl (step env timeout expire) s).successNum
          = s.successNum + (succAddrs (runAdds env.add expire s.table l).1).length ∧
      (l.foldl (step env timeout expire) s).status
          = stickyApply s.status (runAdds env.add expire s.table l).1 ∧
      (l.foldl (step env timeout expire) s).buf.length = kIPv6AddressesNumMax ∧
      (l.foldl (step env timeout expire) s).buf.take
            (l.foldl (step env timeout expire) s).failedNum
          = s.buf.take s.failedNum ++ failAddrs (runAdds env.add expire s.table l).1 ∧
      (l.foldl (step env timeout expire) s).buf.drop
            (kIPv6AddressesNumMax - (l.foldl (step env timeout expire) s).successNum)
          = (succAddrs (runAdds env.add expire s.table l).1).reverse
              ++ s.buf.drop (kIPv6AddressesNumMax - s.successNum) := by
  intro l
  induction l with
  | nil =>
    intro s hbuf hcount
    simp [runAdds, failAddrs, succAddrs, stickyApply, hbuf]
  | cons a rest ih =>
    intro s hbuf hcount
    rcases hr : env.add s.table a expire with ⟨t', o⟩
    have hlen : (a :: rest).length = rest.length + 1 := rfl
    rw [hlen] at hcount
    cases o with
    | ok =>
      have hstep : step env timeout expire s a =
          { s with
            table := t'
            successNum := s.successNum + 1
            buf := s.buf.set (kIPv6AddressesNumMax - (s.successNum + 1)) a } := by
        simp [step, ht, hr]
      have hrun : runAdds env.add expire s.table (a :: rest)
          = ((a, AddOutcome.ok) :: (runAdds env.add expire t' rest).1,
             (runAdds env.add expire t' rest).2) := by
        simp [runAdds, hr]
      have hbuf1 : (s.buf.set (kIPv6AddressesNumMax - (s.successNum + 1)) a).length
          = kIPv6AddressesNumMax := by simp [hbuf]
      have hidx : kIPv6AddressesNumMax - (s.successNum + 1) < s.buf.length := by
        rw [hbuf]; omega
      obtain ⟨ih1, ih2, ih3, ih4, ih5, ih6, ih7⟩ :=
        ih { s with
              table := t'
              successNum := s.successNum + 1
              buf := s.buf.set (kIPv6AddressesNumMax - (s.successNum + 1)) a }
          hbuf1 (by
            show s.failedNum + (s.successNum + 1) + rest.length ≤ kIPv6AddressesNumMax
            omega)
      rw [List.foldl_cons, hstep, hrun]
      refine ⟨?_, ?_, ?_, ?_, ?_, ?_, ?_⟩
      · simpa using ih1
      · simpa [failAddrs] using ih2
      · simp only [succAddrs, List.length_cons] at ih3 ⊢
        omega
      · simp only [stickyApply, sticky_ok]
        simpa using ih4
      · simpa using ih5
      · rw [ih6]
        simp only [failAddrs]
        have : (s.buf.set (kIPv6AddressesNumMax - (s.successNum + 1)) a).take s.failedNum
            = s.buf.take s.failedNum :=
          take_set_of_le a s.buf s.failedNum _ (by omega)
        simp [this]
      · rw [ih7]
        have hdrop : (s.buf.set (kIPv6AddressesNumMax - (s.successNum + 1)) a).drop
              (kIPv6AddressesNumMax - (s.successNum + 1))
            = a :: s.buf.drop (kIPv6AddressesNumMax - (s.successNum + 1) + 1) :=
          drop_set_self a s.buf _ hidx
        have harith : kIPv6AddressesNumMax - (s.successNum + 1) + 1
            = kIPv6AddressesNumMax - s.successNum := by omega
        rw [harith] at hdrop
        simp only [succAddrs, List.reverse_cons]
        simp [hdrop]
    | invalidArgs =>
      have hstep : step env timeout expire s a =
          { s with
            table := t'
            status := if s.status = MlrStatus.success then MlrStatus.invalid else s.status
            failedNum := s.failedNum + 1
            buf := s.buf.set s.failedNum a } := by
        simp [step, ht, hr]
      have hrun : runAdds env.add expire s.table (a :: rest)
          = ((a, AddOutcome.invalidArgs) :: (runAdds env.add expire t' rest).1,
             (runAdds env.add expire t' rest).2) := by
        simp [runAdds, hr]
      have hbuf1 : (s.buf.set s.failedNum a).length = kIPv6AddressesNumMax := by
        simp [hbuf]
      have hidx : s.failedNum < s.buf.length := by rw [hbuf]; omega
      obtain ⟨ih1, ih2, ih3, ih4, ih5, ih6, ih7⟩ :=
        ih { s with
              table := t'
              status := if s.status = MlrStatus.success then MlrStatus.invalid else s.status
              failedNum := s.failedNum + 1
              buf := s.buf.set s.failedNum a }
          hbuf1 (by
            show s.failedNum + 1 + s.successNum + rest.length ≤ kIPv6AddressesNumMax
            omega)
      rw [List.foldl_cons, hstep, hrun]
      refine ⟨?_, ?_, ?_, ?_, ?_, ?_, ?_⟩
      · simpa using ih1
      · simp only [failAddrs, List.length_cons] at ih2 ⊢
        omega
      · simpa [succAddrs] using ih3
      · simp only [stickyApply, classifyOutcome]
        simpa using ih4
      · simpa using ih5
      · rw [ih6]
        have htake : (s.buf.set s.failedNum a).take (s.failedNum + 1)
            = s.buf.take s.failedNum ++ [a] :=
          take_set_self a s.buf s.failedNum hidx
        simp only [failAddrs]
        rw [htake]
        simp
      · rw [ih7]
        have hdrop : (s.buf.set s.failedNum a).drop (kIPv6AddressesNumMax - s.successNum)
            = s.buf.drop (kIPv6AddressesNumMax - s.successNum) :=
          drop_set_of_lt a s.buf _ s.failedNum (by omega)
        simp only [succAddrs]
        simp [hdrop]
    | noBufs =>
      have hstep : step env timeout expire s a =
          { s with
            table := t'
            status := if s.status = MlrStatus.success then MlrStatus.noResources else s.status
            failedNum := s.failedNum + 1
            buf := s.buf.set s.failedNum a } := by
        simp [step, ht, hr]
      have hrun : runAdds env.add expire s.table (a :: rest)
          = ((a, AddOutcome.noBufs) :: (runAdds env.add expire t' rest).1,
             (runAdds env.add expire t' rest).2) := by
        simp [runAdds, hr]
      have hbuf1 : (s.buf.set s.failedNum a).length = kIPv6AddressesNumMax := by
        simp [hbuf]
      have hidx : s.failedNum < s.buf.length := by rw [hbuf]; omega
      obtain ⟨ih1, ih2, ih3, ih4, ih5, ih6, ih7⟩ :=
        ih { s with
              table := t'
              status := if s.status = MlrStatus.success then MlrStatus.noResources else s.status
              failedNum := s.failedNum + 1
              buf := s.buf.set s.failedNum a }
          hbuf1 (by
            show s.failedNum + 1 + s.successNum + rest.length ≤ kIPv6AddressesNumMax
            omega)
      rw [List.foldl_cons, hstep, hrun]
      refine ⟨?_, ?_, ?_, ?_, ?_, ?_, ?_⟩
      · simpa using ih1
      · simp only [failAddrs, List.length_cons] at ih2 ⊢
        omega
      · simpa [succAddrs] using ih3
      · simp only [stickyApply, classifyOutcome]
        simpa using ih4
      · simpa using ih5
      · rw [ih6]
        have htake : (s.buf.set s.failedNum a).take (s.failedNum + 1)
            = s.buf.take s.failedNum ++ [a] :=
          take_set_self a s.buf s.failedNum hidx
        simp only [failAddrs]
        rw [htake]
        simp
      · rw [ih7]
        have hdrop : (s.buf.set s.failedNum a).drop (kIPv6AddressesNumMax - s.successNum)
            = s.buf.drop (kIPv6AddressesNumMax - s.successNum) :=
          drop_set_of_lt a s.buf _ s.failedNum (by omega)
        simp only [succAddrs]
        simp [hdrop]

/-- A non-success status is never overwritten by later outcomes. -/
theorem stickyApply_of_ne (tr : List (Address × AddOutcome)) :
    ∀ (st : MlrStatus), ¬ st = MlrStatus.success → stickyApply st tr = st := by
  induction tr with
  | nil => intro st _; rfl
  | cons p r ih =>
    intro st h
    rcases p with ⟨a, o⟩
    simp only [stickyApply, if_neg h]
    exact ih st h

/-- The sticky reduction starting from `kMlrSuccess` yields exactly the
status class of the first non-success outcome. -/
theorem stickyApply_eq_firstErrStatus (tr : List (Address × AddOutcome)) :
    stickyApply MlrStatus.success tr = firstErrStatus tr := by
  induction tr with
  | nil => rfl
  | cons p r ih =>
    rcases p with ⟨a, o⟩
    cases o with
    | ok =>
      simp only [stickyApply, classifyOutcome, if_pos rfl, firstErrStatus]
      exact ih
    | invalidArgs =>
      simp only [stickyApply, classifyOutcome, if_pos rfl, firstErrStatus]
      exact stickyApply_of_ne r MlrStatus.invalid (by simp)
    | noBufs =>
      simp only [stickyApply, classifyOutcome, if_pos rfl, firstErrStatus]
      exact stickyApply_of_ne r MlrStatus.noResources (by simp)

/-- Observable behaviour of the loop tail for a non-zero effective
timeout, in terms of the `runAdds` trace from the initial table: the
response carries the sticky status and the failed addresses in request
order, the backbone notification exists exactly when some address
succeeded and carries the successful addresses in reverse request order,
and the final table is the trace's table. -/
theorem mlrLoopResult_spec {T : Type} (env : MlrEnv T) (msg : MlrMessage)
    (t0 : T) (len tmo : Nat) (ht : ¬ tmo = 0)
    (hlen : len / addressSize ≤ kIPv6AddressesNumMax) :
    (mlrLoopResult env msg t0 len tmo).response
        = some
            (stickyApply MlrStatus.success
              (runAdds env.add (env.now + tmo * 1000) t0 (requestAddrs msg len)).1,
             failAddrs
              (runAdds env.add (env.now + tmo * 1000) t0 (requestAddrs msg len)).1) ∧
    (mlrLoopResult env msg t0 len tmo).backbone
        = (if succAddrs
                (runAdds env.add (env.now + tmo * 1000) t0 (requestAddrs msg len)).1
              = [] then none
           else
             some
               ((succAddrs
                  (runAdds env.add (env.now + tmo * 1000) t0
                    (requestAddrs msg len)).1).reverse,
                tmo)) ∧
    (mlrLoopResult env msg t0 len tmo).table
        = (runAdds env.add (env.now + tmo * 1000) t0 (requestAddrs msg len)).2 := by
  have hlen' : (requestAddrs msg len).length = len / addressSize := by
    simp [requestAddrs]
  have hinit : (mlrInitState t0 : LoopState T).buf.length = kIPv6AddressesNumMax := by
    simp [mlrInitState]
  have hcount : (mlrInitState t0 : LoopState T).failedNum
      + (mlrInitState t0 : LoopState T).successNum
      + (requestAddrs msg len).length ≤ kIPv6AddressesNumMax := by
    simp [mlrInitState, hlen']
    exact hlen
  obtain ⟨h1, h2, h3, h4, h5, h6, h7⟩ :=
    foldl_step_spec env tmo (env.now + tmo * 1000) ht (requestAddrs msg len)
      (mlrInitState t0) hinit hcount
  have hstable : (mlrInitState t0 : LoopState T).table = t0 := rfl
  rw [hstable] at h1 h2 h3 h4 h6 h7
  unfold mlrLoopResult
  simp only []
  refine ⟨?_, ?_, ?_⟩
  · rw [h6, h4]
    simp [mlrInitState]
  · by_cases hs : succAddrs
        (runAdds env.add (env.now + tmo * 1000) t0 (requestAddrs msg len)).1 = []
    · rw [if_pos hs]
      have hzero : (List.foldl (step env tmo (env.now + tmo * 1000)) (mlrInitState t0)
          (requestAddrs msg len)).successNum = 0 := by
        rw [h3, hs]; rfl
      rw [hzero]
      simp
    · rw [if_neg hs]
      have hpos : 0 < (List.foldl (step env tmo (env.now + tmo * 1000)) (mlrInitState t0)
          (requestAddrs msg len)).successNum := by
        rw [h3]
        have hp := List.length_pos.mpr hs
        simp [mlrInitState]
        omega
      rw [if_pos hpos, h7]
      have hnil : List.drop (kIPv6AddressesNumMax - (mlrInitState t0 : LoopState T).successNum)
          (mlrInitState t0 : LoopState T).buf = [] := by
        simp [mlrInitState]
      rw [hnil, List.append_nil]
  · exact h1

/-- A trace has one entry per processed address. -/
theorem runAdds_length {T : Type} (add : T → Address → Nat → T × AddOutcome)
    (expire : Nat) :
    ∀ (t : T) (l : List Address), (runAdds add expire t l).1.length = l.length := by
  intro t l
  induction l generalizing t with
  | nil => rfl
  | cons a rest ih => simp [runAdds, ih]

/-- Every trace entry lands in exactly one of the two lists. -/
theorem failAddrs_length_add_succAddrs_length :
    ∀ (tr : List (Address × AddOutcome)),
      (failAddrs tr).length + (succAddrs tr).length = tr.length := by
  intro tr
  induction tr with
  | nil => rfl
  | cons p r ih =>
    rcases p with ⟨a, o⟩
    cases o <;> simp [failAddrs, succAddrs] <;> omega

/-- A trace with no failed address reduces the sticky status from
success to success. -/
theorem stickyApply_success_of_no_fail :
    ∀ (tr : List (Address × AddOutcome)), failAddrs tr = [] →
      stickyApply MlrStatus.success tr = MlrStatus.success := by
  intro tr
  induction tr with
  | nil => intro _; rfl
  | cons p r ih =>
    rcases p with ⟨a, o⟩
    cases o with
    | ok =>
      intro h
      simp only [failAddrs] at h
      simp only [stickyApply, classifyOutcome, if_pos rfl]
      exact ih h
    | invalidArgs => intro h; simp [failAddrs] at h
    | noBufs => intro h; simp [failAddrs] at h

/-- With effective timeout zero the loop performs only removals, so no
backbone notification is sent. -/
theorem mlrLoopResult_backbone_zero {T : Type} (env : MlrEnv T) (msg : MlrMessage)
    (t0 : T) (len : Nat) :
    (mlrLoopResult env msg t0 len 0).backbone = none := by
  unfold mlrLoopResult
  simp only [foldl_step_zero_spec]
  simp [mlrInitState]

/-- The addresses an MLR request successfully registers in the multicast
listeners table, in request order: empty on every pre-loop exit path and
when the effective timeout is zero, otherwise the addresses whose table
`Add` returned success. This mirrors the branch structure of
`handleMulticastListenerRegistration`. -/
def mlrSuccesses {T : Type} (env : MlrEnv T) (msg : MlrMessage) (t0 : T) : List Address :=
  if ¬ msg.isConfirmablePost then []
  else if ¬ env.isPrimary then []
  else if ¬ sessionMatches env.leaderSessionId msg then []
  else
    match msg.addressesTlvLength with
    | none => []
    | some len =>
      if ¬ len % addressSize = 0 then []
      else if ¬ len / addressSize ≤ kIPv6AddressesNumMax then []
      else
        match effectiveTimeout env msg with
        | none => []
        | some tmo =>
          if tmo = 0 then []
          else succAddrs (runAdds env.add (env.now + tmo * 1000) t0 (requestAddrs msg len)).1

/-- The backbone notification of an MLR request, in terms of the
successfully registered addresses: absent exactly when no address
succeeded, and otherwise carrying the successful addresses in reverse
request order together with the effective timeout. -/
theorem handleMlr_backbone_spec {T : Type} (env : MlrEnv T) (msg : MlrMessage) (t0 : T) :
    (handleMulticastListenerRegistration env msg t0).backbone
      = if mlrSuccesses env msg t0 = [] then none
        else some ((mlrSuccesses env msg t0).reverse, (effectiveTimeout env msg).getD 0) := by
  unfold handleMulticastListenerRegistration mlrSuccesses
  by_cases h1 : msg.isConfirmablePost
  case neg => simp [h1]
  case pos =>
  by_cases h2 : env.isPrimary
  case neg => simp [h1, h2]
  case pos =>
  by_cases h3 : sessionMatches env.leaderSessionId msg
  case neg => simp [h1, h2, h3]
  case pos =>
  rcases h4 : msg.addressesTlvLength with _ | len
  · simp [h1, h2, h3, h4]
  by_cases h5 : len % addressSize = 0
  case neg => simp [h1, h2, h3, h4, h5]
  case pos =>
  by_cases h6 : len / addressSize ≤ kIPv6AddressesNumMax
  case neg => simp [h1, h2, h3, h4, h5, h6]
  case pos =>
  by_cases hp : msg.commissionerSessionIdTlv.isSome ∧ msg.timeoutTlv.isSome
  · have he : effectiveTimeout env msg
        = if msg.timeoutTlv.getD 0 < UINT32_MAX then
            some (if msg.timeoutTlv.getD 0 ≠ 0 then
                    max (min (msg.timeoutTlv.getD 0) kMlrTimeoutMax) kMlrTimeoutMin
                  else msg.timeoutTlv.getD 0)
          else none := by
      unfold effectiveTimeout
      rw [if_pos hp]
    by_cases hv : msg.timeoutTlv.getD 0 < UINT32_MAX
    · rw [if_pos hv] at he
      by_cases hz : msg.timeoutTlv.getD 0 = 0
      · have he0 : effectiveTimeout env msg = some 0 := by
          rw [he]; simp [hz]
        simp only [h1, h2, h3, h4, h5, h6, hp, hv, hz, he0]
        simp [mlrLoopResult_backbone_zero, UINT32_MAX]
      · have hcl : effectiveTimeout env msg
            = some (max (min (msg.timeoutTlv.getD 0) kMlrTimeoutMax) kMlrTimeoutMin) := by
          rw [he]; simp [hz]
        have hclnz : ¬ (max (min (msg.timeoutTlv.getD 0) kMlrTimeoutMax) kMlrTimeoutMin) = 0 := by
          have : 0 < kMlrTimeoutMin := by decide
          have := Nat.le_max_right (min (msg.timeoutTlv.getD 0) kMlrTimeoutMax) kMlrTimeoutMin
          omega
        obtain ⟨b1, b2, b3⟩ := mlrLoopResult_spec env msg t0 len
          (max (min (msg.timeoutTlv.getD 0) kMlrTimeoutMax) kMlrTimeoutMin) hclnz h6
        have hmin : ¬ kMlrTimeoutMin = 0 := by decide
        simp only [h1, h2, h3, h4, h5, h6, hp, hv, hz, hcl]
        simp [hz, b2, hmin]
    · have hen : effectiveTimeout env msg = none := by rw [he, if_neg hv]
      simp [h1, h2, h3, h4, h5, h6, hp, hv, hen]
  · have hed : effectiveTimeout env msg = some env.defaultMlrTimeout := by
      unfold effectiveTimeout
      rw [if_neg hp]
    by_cases hz : env.defaultMlrTimeout = 0
    · simp only [h1, h2, h3, h4, h5, h6, hp, hed, hz]
      simp [hz, mlrLoopResult_backbone_zero, hed]
    · obtain ⟨b1, b2, b3⟩ := mlrLoopResult_spec env msg t0 len env.defaultMlrTimeout hz h6
      simp only [h1, h2, h3, h4, h5, h6, hp, hed, hz]
      simp [hz, b2]

/-- C5: a well-formed MLR or DUA registration request received while this
router is not primary is answered with status `kMlrBbrNotPrimary`
(respectively `kDuaNotPrimary`), and neither the multicast listeners
table nor the ND proxy table is modified; no backbone notification is
sent for the MLR request. -/
theorem c5_not_primary_rejected {T P : Type} (envM : MlrEnv T) (msgM : MlrMessage)
    (t0 : T) (envD : DuaEnv P) (msgD : DuaMessage) (p0 : P)
    (target : Address) (mlIid : Nat)
    (hM1 : msgM.isConfirmablePost = true) (hM2 : envM.isPrimary = false)
    (hD1 : msgD.srcIsRloc = true) (hD2 : msgD.isConfirmablePost = true)
    (hD3 : msgD.targetTlv = some target) (hD4 : msgD.meshLocalIidTlv = some mlIid)
    (hD5 : envD.isPrimary = false) :
    ((handleMulticastListenerRegistration envM msgM t0).response
        = some (MlrStatus.bbrNotPrimary, []) ∧
      (handleMulticastListenerRegistration envM msgM t0).table = t0 ∧
      (handleMulticastListenerRegistration envM msgM t0).backbone = none) ∧
    ((handleDuaRegistration envD msgD p0).response
        = some (DuaStatus.notPrimary, target) ∧
      (handleDuaRegistration envD msgD p0).proxy = p0) := by
  constructor
  · unfold handleMulticastListenerRegistration
    simp [hM1, hM2]
  · unfold handleDuaRegistration
    rw [hD3, hD4]
    simp [hD1, hD2, hD5]

/-- C5 witness at concrete inputs. -/
theorem c5_not_primary_rejected_witness :
    ((MlrMessage.mk true none none (some 16) (fun i => i)).isConfirmablePost = true ∧
     (MlrEnv.mk false none 3600 0
        (fun (t : Unit) _ _ => (t, AddOutcome.ok)) (fun t _ => t)).isPrimary = false ∧
     (DuaMessage.mk true 9 true (some 77) (some 5) none).srcIsRloc = true ∧
     (DuaMessage.mk true 9 true (some 77) (some 5) none).isConfirmablePost = true ∧
     (DuaMessage.mk true 9 true (some 77) (some 5) none).targetTlv = some 77 ∧
     (DuaMessage.mk true 9 true (some 77) (some 5) none).meshLocalIidTlv = some 5 ∧
     (DuaEnv.mk false (fun _ => true)
        (fun (p : Unit) _ _ _ _ => (p, RegisterOutcome.ok))).isPrimary = false) ∧
    (((handleMulticastListenerRegistration
          (MlrEnv.mk false none 3600 0
            (fun (t : Unit) _ _ => (t, AddOutcome.ok)) (fun t _ => t))
          (MlrMessage.mk true none none (some 16) (fun i => i)) ()).response
        = some (MlrStatus.bbrNotPrimary, []) ∧
      (handleMulticastListenerRegistration
          (MlrEnv.mk false none 3600 0
            (fun (t : Unit) _ _ => (t, AddOutcome.ok)) (fun t _ => t))
          (MlrMessage.mk true none none (some 16) (fun i => i)) ()).table = () ∧
      (handleMulticastListenerRegistration
          (MlrEnv.mk false none 3600 0
            (fun (t : Unit) _ _ => (t, AddOutcome.ok)) (fun t _ => t))
          (MlrMessage.mk true none none (some 16) (fun i => i)) ()).backbone = none) ∧
     ((handleDuaRegistration
          (DuaEnv.mk false (fun _ => true)
            (fun (p : Unit) _ _ _ _ => (p, RegisterOutcome.ok)))
          (DuaMessage.mk true 9 true (some 77) (some 5) none) ()).response
        = some (DuaStatus.notPrimary, 77) ∧
      (handleDuaRegistration
          (DuaEnv.mk false (fun _ => true)
            (fun (p : Unit) _ _ _ _ => (p, RegisterOutcome.ok)))
          (DuaMessage.mk true 9 true (some 77) (some 5) none) ()).proxy = ())) :=
  ⟨⟨rfl, rfl, rfl, rfl, rfl, rfl, rfl⟩,
   c5_not_primary_rejected
     (MlrEnv.mk false none 3600 0 (fun (t : Unit) _ _ => (t, AddOutcome.ok)) (fun t _ => t))
     (MlrMessage.mk true none none (some 16) (fun i => i)) ()
     (DuaEnv.mk false (fun _ => true) (fun (p : Unit) _ _ _ _ => (p, RegisterOutcome.ok)))
     (DuaMessage.mk true 9 true (some 77) (some 5) none) ()
     77 5 rfl rfl rfl rfl rfl rfl rfl⟩

/-- C6: a DUA registration request whose source interface identifier is
not a routing locator is dropped silently — no response of any kind is
produced and the proxy table is untouched, whatever the rest of the
message contains. -/
theorem c6_dua_nonrloc_dropped {P : Type} (env : DuaEnv P) (msg : DuaMessage)
    (p0 : P) (h : msg.srcIsRloc = false) :
    (handleDuaRegistration env msg p0).response = none ∧
    (handleDuaRegistration env msg p0).proxy = p0 := by
  unfold handleDuaRegistration
  rw [h]
  simp

/-- C6 witness at a concrete input. -/
theorem c6_dua_nonrloc_dropped_witness :
    (DuaMessage.mk false 9 true (some 77) (some 5) (some 4)).srcIsRloc = false ∧
    ((handleDuaRegistration
        (DuaEnv.mk true (fun _ => true)
          (fun (p : Unit) _ _ _ _ => (p, RegisterOutcome.ok)))
        (DuaMessage.mk false 9 true (some 77) (some 5) (some 4)) ()).response = none ∧
     (handleDuaRegistration
        (DuaEnv.mk true (fun _ => true)
          (fun (p : Unit) _ _ _ _ => (p, RegisterOutcome.ok)))
        (DuaMessage.mk false 9 true (some 77) (some 5) (some 4)) ()).proxy = ()) :=
  ⟨rfl,
   c6_dua_nonrloc_dropped
     (DuaEnv.mk true (fun _ => true) (fun (p : Unit) _ _ _ _ => (p, RegisterOutcome.ok)))
     (DuaMessage.mk false 9 true (some 77) (some 5) (some 4)) () rfl⟩

/-- C7: the backbone forward-decision query answers true exactly when
this router is primary, the destination lies in the domain-unicast
prefix, its interface identifier is not registered in the proxy table,
and mesh address resolution fails or resolves to this router's own short
address; and the query leaves the manager state unchanged. -/
theorem c7_should_forward_iff (env : SfdEnv) (s : ManagerState) (a : Address) :
    ((shouldForwardDuaToBackbone env s a).1 = true ↔
      (env.isPrimary = true ∧ env.isDomainUnicast a = true ∧
       isRegistered s.proxy (Address.iid a) = false ∧
       (env.resolve a = none ∨ env.resolve a = some env.ownRloc16))) ∧
    (shouldForwardDuaToBackbone env s a).2 = s := by
  refine ⟨?_, rfl⟩
  unfold shouldForwardDuaToBackbone
  by_cases h1 : env.isPrimary
  · by_cases h2 : env.isDomainUnicast a
    · by_cases h3 : isRegistered s.proxy (Address.iid a)
      · simp [h1, h2, h3]
      · rcases hr : env.resolve a with _ | rloc16
        · simp [h1, h2, h3, hr]
        · simp [h1, h2, h3, hr]
    · simp [h1, h2]
  · simp [h1]

/-- C8: handling the backbone-router-disabled notifier event empties the
multicast listeners table and stops the expiry timer, while the ND proxy
table's contents are exactly what they were before the event. -/
theorem c8_disable_clears_listeners_keeps_proxy (contains : Bool)
    (st : BbrState) (s : ManagerState)
    (h1 : contains = true) (h2 : st = BbrState.disabled) :
    (handleNotifierEvents contains st s).listeners = [] ∧
    (handleNotifierEvents contains st s).timerRunning = false ∧
    (handleNotifierEvents contains st s).proxy = s.proxy := by
  subst h1
  subst h2
  simp [handleNotifierEvents]

/-- C8 witness at a concrete state holding one listener and one proxy entry. -/
theorem c8_disable_clears_listeners_keeps_proxy_witness :
    ((true = true) ∧ (BbrState.disabled = BbrState.disabled)) ∧
    ((handleNotifierEvents true BbrState.disabled
        (ManagerState.mk [(5, 100)] [ProxyEntry.mk 1 2 3 none] true true true true)).listeners
        = [] ∧
     (handleNotifierEvents true BbrState.disabled
        (ManagerState.mk [(5, 100)] [ProxyEntry.mk 1 2 3 none] true true true true)).timerRunning
        = false ∧
     (handleNotifierEvents true BbrState.disabled
        (ManagerState.mk [(5, 100)] [ProxyEntry.mk 1 2 3 none] true true true true)).proxy
        = (ManagerState.mk [(5, 100)] [ProxyEntry.mk 1 2 3 none] true true true true).proxy) :=
  ⟨⟨rfl, rfl⟩,
   c8_disable_clears_listeners_keeps_proxy true BbrState.disabled
     (ManagerState.mk [(5, 100)] [ProxyEntry.mk 1 2 3 none] true true true true) rfl rfl⟩

/-- A concrete MLR environment over the unit table on which every `Add`
succeeds: primary role, no leader commissioner session, default timeout
3600 s. -/
def mlrEnvAllOk : MlrEnv Unit :=
  MlrEnv.mk true none 3600 0 (fun t _ _ => (t, AddOutcome.ok)) (fun t _ => t)

/-- A concrete confirmable MLR request whose addresses TLV has payload
length 8 — not a multiple of the 16-byte address size. -/
def mlrMsgBadLen : MlrMessage :=
  MlrMessage.mk true none none (some 8) (fun _ => 0)

/-- C2 counterexample: a primary-handled confirmable MLR request whose
addresses TLV length 8 is not a multiple of the address size is NOT
dropped — the handler sends a response with status `kMlrGeneralFailure`,
contradicting the claim that no response is sent for this malformed
shape. -/
theorem c2_counterexample_badlen_responds :
    mlrMsgBadLen.addressesTlvLength = some 8 ∧
    ¬ (8 % addressSize = 0) ∧
    (handleMulticastListenerRegistration mlrEnvAllOk mlrMsgBadLen ()).response
      = some (MlrStatus.generalFailure, []) :=
  ⟨rfl, by decide, rfl⟩

/-- C2 as amended: for a confirmable request handled by the primary with
a matching commissioner session, an absent addresses TLV drops the
request with no response; a present TLV whose payload length is not a
multiple of the address size, or whose element count exceeds
`kIPv6AddressesNumMax`, is answered with status `kMlrGeneralFailure`. In
all three cases the multicast listeners table is unchanged and no
backbone notification is sent. -/
theorem c2_amended_malformed_address_tlv {T : Type} (env : MlrEnv T)
    (msg : MlrMessage) (t0 : T)
    (h1 : msg.isConfirmablePost = true)
    (h2 : env.isPrimary = true)
    (h3 : sessionMatches env.leaderSessionId msg = true) :
    (msg.addressesTlvLength = none →
      (handleMulticastListenerRegistration env msg t0).response = none ∧
      (handleMulticastListenerRegistration env msg t0).table = t0 ∧
      (handleMulticastListenerRegistration env msg t0).backbone = none) ∧
    (∀ len, msg.addressesTlvLength = some len → ¬ len % addressSize = 0 →
      (handleMulticastListenerRegistration env msg t0).response
          = some (MlrStatus.generalFailure, []) ∧
      (handleMulticastListenerRegistration env msg t0).table = t0 ∧
      (handleMulticastListenerRegistration env msg t0).backbone = none) ∧
    (∀ len, msg.addressesTlvLength = some len → len % addressSize = 0 →
      ¬ len / addressSize ≤ kIPv6AddressesNumMax →
      (handleMulticastListenerRegistration env msg t0).response
          = some (MlrStatus.generalFailure, []) ∧
      (handleMulticastListenerRegistration env msg t0).table = t0 ∧
      (handleMulticastListenerRegistration env msg t0).backbone = none) := by
  refine ⟨?_, ?_, ?_⟩
  · intro h4
    unfold handleMulticastListenerRegistration
    rw [h4]
    simp [h1, h2, h3]
  · intro len h4 h5
    unfold handleMulticastListenerRegistration
    rw [h4]
    simp [h1, h2, h3, h5]
  · intro len h4 h5 h6
    unfold handleMulticastListenerRegistration
    rw [h4]
    simp [h1, h2, h3, h5, h6]

/-- C2 amended-claim witness: exercises all three malformed shapes at
concrete inputs (absent TLV; length 8; 16 addresses = 256 bytes). -/
theorem c2_amended_malformed_address_tlv_witness :
    ((MlrMessage.mk true none none none (fun _ => 0)).isConfirmablePost = true ∧
     mlrEnvAllOk.isPrimary = true ∧
     sessionMatches mlrEnvAllOk.leaderSessionId
       (MlrMessage.mk true none none none (fun _ => 0)) = true) ∧
    ((handleMulticastListenerRegistration mlrEnvAllOk
        (MlrMessage.mk true none none none (fun _ => 0)) ()).response = none ∧
     (handleMulticastListenerRegistration mlrEnvAllOk mlrMsgBadLen ()).response
        = some (MlrStatus.generalFailure, []) ∧
     (handleMulticastListenerRegistration mlrEnvAllOk
        (MlrMessage.mk true none none (some 256) (fun _ => 0)) ()).response
        = some (MlrStatus.generalFailure, [])) :=
  ⟨⟨rfl, rfl, rfl⟩,
   ⟨((c2_amended_malformed_address_tlv mlrEnvAllOk
        (MlrMessage.mk true none none none (fun _ => 0)) () rfl rfl rfl).1 rfl).1,
    ((c2_amended_malformed_address_tlv mlrEnvAllOk mlrMsgBadLen () rfl rfl
        rfl).2.1 8 rfl (by decide)).1,
    ((c2_amended_malformed_address_tlv mlrEnvAllOk
        (MlrMessage.mk true none none (some 256) (fun _ => 0)) () rfl rfl
        rfl).2.2 256 rfl (by decide) (by decide)).1⟩⟩

/-- C4: for an MLR request handled by the primary that carries a matching
commissioner-session TLV and a timeout TLV `tval` (with a well-formed
addresses TLV): `tval = UINT32_MAX` yields status `kMlrNoPersistent` with
no table mutation and no backbone notification; `0 < tval < UINT32_MAX`
makes the handler run the loop at `tval` clamped into
`[kMlrTimeoutMin, kMlrTimeoutMax]` — that clamped value is what expiry
and backbone forwarding use — and when every table `Add` succeeds the
response status is `kMlrSuccess`, so clamping alone never produces a
non-success status. -/
theorem c4_timeout_sentinel_and_clamp {T : Type} (env : MlrEnv T) (msg : MlrMessage)
    (t0 : T) (len sid tval : Nat)
    (h1 : msg.isConfirmablePost = true)
    (h2 : env.isPrimary = true)
    (h3 : msg.commissionerSessionIdTlv = some sid)
    (h4 : env.leaderSessionId = some sid)
    (h5 : msg.timeoutTlv = some tval)
    (h6 : msg.addressesTlvLength = some len)
    (h7 : len % addressSize = 0)
    (h8 : len / addressSize ≤ kIPv6AddressesNumMax) :
    (tval = UINT32_MAX →
      (handleMulticastListenerRegistration env msg t0).response
          = some (MlrStatus.noPersistent, []) ∧
      (handleMulticastListenerRegistration env msg t0).table = t0 ∧
      (handleMulticastListenerRegistration env msg t0).backbone = none) ∧
    (0 < tval → tval < UINT32_MAX →
      handleMulticastListenerRegistration env msg t0
        = mlrLoopResult env msg t0 len (max (min tval kMlrTimeoutMax) kMlrTimeoutMin) ∧
      (failAddrs (runAdds env.add
            (env.now + (max (min tval kMlrTimeoutMax) kMlrTimeoutMin) * 1000) t0
            (requestAddrs msg len)).1 = [] →
        (handleMulticastListenerRegistration env msg t0).response
          = some (MlrStatus.success, []))) := by
  have hsess : sessionMatches env.leaderSessionId msg = true := by
    unfold sessionMatches
    rw [h3, h4]
    simp
  constructor
  · intro htv
    unfold handleMulticastListenerRegistration
    rw [h6]
    simp [h1, h2, hsess, h7, h8, h3, h5, htv]
  · intro hpos hlt
    have hclnz : ¬ (max (min tval kMlrTimeoutMax) kMlrTimeoutMin) = 0 := by
      have : 0 < kMlrTimeoutMin := by decide
      have := Nat.le_max_right (min tval kMlrTimeoutMax) kMlrTimeoutMin
      omega
    have hefft : effectiveTimeout env msg
        = some (max (min tval kMlrTimeoutMax) kMlrTimeoutMin) := by
      unfold effectiveTimeout
      rw [if_pos (by rw [h3, h5]; exact ⟨rfl, rfl⟩)]
      rw [h5]
      simp only [Option.getD_some]
      rw [if_pos hlt]
      rw [if_pos (by omega : tval ≠ 0)]
    have hreach := handleMlr_reaches_loop env msg t0 len
      (max (min tval kMlrTimeoutMax) kMlrTimeoutMin)
      h1 h2 hsess h6 h7 h8 hefft
    refine ⟨hreach, ?_⟩
    intro hnofail
    obtain ⟨b1, b2, b3⟩ := mlrLoopResult_spec env msg t0 len
      (max (min tval kMlrTimeoutMax) kMlrTimeoutMin) hclnz h8
    rw [hreach, b1, hnofail,
      stickyApply_success_of_no_fail _ hnofail]

/-- C4 witness: at concrete inputs, timeout `UINT32_MAX` yields the
`kMlrNoPersistent` exit and timeout `kMlrTimeoutMax + 1000` runs the loop
at the clamped value with an all-success response. -/
theorem c4_timeout_sentinel_and_clamp_witness :
    ((MlrMessage.mk true (some 2) (some UINT32_MAX) (some 16) (fun _ => 0)).isConfirmablePost
        = true ∧
     (MlrEnv.mk true (some 2) 3600 0
        (fun (t : Unit) _ _ => (t, AddOutcome.ok)) (fun t _ => t)).isPrimary = true ∧
     (MlrMessage.mk true (some 2) (some UINT32_MAX) (some 16)
        (fun _ => 0)).commissionerSessionIdTlv = some 2 ∧
     (UINT32_MAX = UINT32_MAX) ∧
     (0 < 2148483 ∧ 2148483 < UINT32_MAX)) ∧
    ((handleMulticastListenerRegistration
        (MlrEnv.mk true (some 2) 3600 0
          (fun (t : Unit) _ _ => (t, AddOutcome.ok)) (fun t _ => t))
        (MlrMessage.mk true (some 2) (some UINT32_MAX) (some 16) (fun _ => 0)) ()).response
        = some (MlrStatus.noPersistent, []) ∧
     handleMulticastListenerRegistration
        (MlrEnv.mk true (some 2) 3600 0
          (fun (t : Unit) _ _ => (t, AddOutcome.ok)) (fun t _ => t))
        (MlrMessage.mk true (some 2) (some 2148483) (some 16) (fun _ => 0)) ()
        = mlrLoopResult
            (MlrEnv.mk true (some 2) 3600 0
              (fun (t : Unit) _ _ => (t, AddOutcome.ok)) (fun t _ => t))
            (MlrMessage.mk true (some 2) (some 2148483) (some 16) (fun _ => 0)) () 16
            (max (min 2148483 kMlrTimeoutMax) kMlrTimeoutMin)) :=
  ⟨⟨rfl, rfl, rfl, rfl, by decide, by decide⟩,
   ((c4_timeout_sentinel_and_clamp
       (MlrEnv.mk true (some 2) 3600 0
         (fun (t : Unit) _ _ => (t, AddOutcome.ok)) (fun t _ => t))
       (MlrMessage.mk true (some 2) (some UINT32_MAX) (some 16) (fun _ => 0)) ()
       16 2 UINT32_MAX rfl rfl rfl rfl rfl rfl (by decide) (by decide)).1 rfl).1,
   ((c4_timeout_sentinel_and_clamp
       (MlrEnv.mk true (some 2) 3600 0
         (fun (t : Unit) _ _ => (t, AddOutcome.ok)) (fun t _ => t))
       (MlrMessage.mk true (some 2) (some 2148483) (some 16) (fun _ => 0)) ()
       16 2 2148483 rfl rfl rfl rfl rfl rfl (by decide) (by decide)).2
     (by decide) (by decide)).1⟩

/-- C3: for an MLR request that reaches the per-address loop with a
non-zero effective timeout, whatever per-address `Add` outcomes the table
produces, the response's top-level status is the status class of the
first non-success outcome (later outcomes — successes in particular —
never overwrite it), and it is `kMlrSuccess` when every `Add` succeeds;
the response also carries the failed addresses. -/
theorem c3_first_error_sticky_status {T : Type} (env : MlrEnv T) (msg : MlrMessage)
    (t0 : T) (len tmo : Nat)
    (h1 : msg.isConfirmablePost = true)
    (h2 : env.isPrimary = true)
    (h3 : sessionMatches env.leaderSessionId msg = true)
    (h4 : msg.addressesTlvLength = some len)
    (h5 : len % addressSize = 0)
    (h6 : len / addressSize ≤ kIPv6AddressesNumMax)
    (h7 : effectiveTimeout env msg = some tmo)
    (h8 : ¬ tmo = 0) :
    (handleMulticastListenerRegistration env msg t0).response
      = some
          (firstErrStatus
            (runAdds env.add (env.now + tmo * 1000) t0 (requestAddrs msg len)).1,
           failAddrs
            (runAdds env.add (env.now + tmo * 1000) t0 (requestAddrs msg len)).1) := by
  rw [handleMlr_reaches_loop env msg t0 len tmo h1 h2 h3 h4 h5 h6 h7]
  obtain ⟨b1, _, _⟩ := mlrLoopResult_spec env msg t0 len tmo h8 h6
  rw [b1, stickyApply_eq_firstErrStatus]

/-- C3 witness: with a table that rejects address 0 for capacity and
accepts address 1, the request [0, 1] is answered `kMlrNoResources` with
failed list [0] — the first non-success outcome wins and the later
success does not overwrite it. -/
theorem c3_first_error_sticky_status_witness :
    ((MlrMessage.mk true none none (some 32) (fun i => i)).isConfirmablePost = true ∧
     effectiveTimeout
        (MlrEnv.mk true none 5 0
          (fun (t : Unit) a _ => (t, if a = 0 then AddOutcome.noBufs else AddOutcome.ok))
          (fun t _ => t))
        (MlrMessage.mk true none none (some 32) (fun i => i)) = some 5 ∧
     ¬ (5 : Nat) = 0) ∧
    ((handleMulticastListenerRegistration
        (MlrEnv.mk true none 5 0
          (fun (t : Unit) a _ => (t, if a = 0 then AddOutcome.noBufs else AddOutcome.ok))
          (fun t _ => t))
        (MlrMessage.mk true none none (some 32) (fun i => i)) ()).response
      = some
          (firstErrStatus
            (runAdds
              (MlrEnv.mk true none 5 0
                (fun (t : Unit) a _ =>
                  (t, if a = 0 then AddOutcome.noBufs else AddOutcome.ok))
                (fun t _ => t)).add (0 + 5 * 1000) ()
              (requestAddrs (MlrMessage.mk true none none (some 32) (fun i => i)) 32)).1,
           failAddrs
            (runAdds
              (MlrEnv.mk true none 5 0
                (fun (t : Unit) a _ =>
                  (t, if a = 0 then AddOutcome.noBufs else AddOutcome.ok))
                (fun t _ => t)).add (0 + 5 * 1000) ()
              (requestAddrs (MlrMessage.mk true none none (some 32) (fun i => i)) 32)).1) ∧
     firstErrStatus
        (runAdds
          (MlrEnv.mk true none 5 0
            (fun (t : Unit) a _ =>
              (t, if a = 0 then AddOutcome.noBufs else AddOutcome.ok))
            (fun t _ => t)).add (0 + 5 * 1000) ()
          (requestAddrs (MlrMessage.mk true none none (some 32) (fun i => i)) 32)).1
        = MlrStatus.noResources) :=
  ⟨⟨rfl, rfl, by decide⟩,
   c3_first_error_sticky_status
     (MlrEnv.mk true none 5 0
       (fun (t : Unit) a _ => (t, if a = 0 then AddOutcome.noBufs else AddOutcome.ok))
       (fun t _ => t))
     (MlrMessage.mk true none none (some 32) (fun i => i)) () 32 5
     rfl rfl rfl rfl rfl (by decide) rfl (by decide),
   rfl⟩

/-- C9: a backbone notification is emitted if and only if at least one
address of the MLR request was successfully added to the multicast
listeners table; in particular, with effective timeout zero (the removal
case) no notification is sent, and a request in which no address succeeds
produces no notification even when a mesh response is sent. -/
theorem c9_backbone_iff_some_success {T : Type} (env : MlrEnv T) (msg : MlrMessage)
    (t0 : T) :
    (((handleMulticastListenerRegistration env msg t0).backbone).isSome = true
      ↔ ¬ mlrSuccesses env msg t0 = []) ∧
    (effectiveTimeout env msg = some 0 →
      (handleMulticastListenerRegistration env msg t0).backbone = none) := by
  constructor
  · rw [handleMlr_backbone_spec]
    by_cases h : mlrSuccesses env msg t0 = []
    · simp [h]
    · simp [h]
  · intro h0
    rw [handleMlr_backbone_spec]
    have hs : mlrSuccesses env msg t0 = [] := by
      unfold mlrSuccesses
      rw [h0]
      by_cases h1 : msg.isConfirmablePost
      case neg => simp [h1]
      case pos =>
      by_cases h2 : env.isPrimary
      case neg => simp [h1, h2]
      case pos =>
      by_cases h3 : sessionMatches env.leaderSessionId msg
      case neg => simp [h1, h2, h3]
      case pos =>
      rcases h4 : msg.addressesTlvLength with _ | len
      · simp [h1, h2, h3]
      · simp [h1, h2, h3]
    rw [if_pos hs]

/-- C9 witness: a removal request (effective timeout zero) produces no
backbone notification. -/
theorem c9_backbone_iff_some_success_witness :
    effectiveTimeout
        (MlrEnv.mk true none 0 0
          (fun (t : Unit) _ _ => (t, AddOutcome.ok)) (fun t _ => t))
        (MlrMessage.mk true none none (some 16) (fun i => i)) = some 0 ∧
    (handleMulticastListenerRegistration
        (MlrEnv.mk true none 0 0
          (fun (t : Unit) _ _ => (t, AddOutcome.ok)) (fun t _ => t))
        (MlrMessage.mk true none none (some 16) (fun i => i)) ()).backbone = none :=
  ⟨rfl,
   (c9_backbone_iff_some_success
      (MlrEnv.mk true none 0 0
        (fun (t : Unit) _ _ => (t, AddOutcome.ok)) (fun t _ => t))
      (MlrMessage.mk true none none (some 16) (fun i => i)) ()).2 rfl⟩

/-- A concrete confirmable MLR request carrying two addresses (payload 32
bytes), element `i` being the address `i`. -/
def mlrMsgTwoAddrs : MlrMessage :=
  MlrMessage.mk true none none (some 32) (fun i => i)

/-- C1 counterexample: for the request carrying addresses [0, 1] (both
successfully registered, in that order), the backbone notification
carries [1, 0] — the reverse of the order in the request's address-list
TLV — so forwarding does not preserve request order. -/
theorem c1_counterexample_backbone_not_request_order :
    requestAddrs mlrMsgTwoAddrs 32 = [0, 1] ∧
    mlrSuccesses mlrEnvAllOk mlrMsgTwoAddrs () = [0, 1] ∧
    (handleMulticastListenerRegistration mlrEnvAllOk mlrMsgTwoAddrs ()).backbone
      = some ([1, 0], 3600) ∧
    ¬ ((handleMulticastListenerRegistration mlrEnvAllOk mlrMsgTwoAddrs ()).backbone
        = some ([0, 1], 3600)) := by
  refine ⟨by decide, by decide, by decide, by decide⟩

/-- C1 as amended: the loop registers addresses in request order, but the
backbone notification carries the successfully registered addresses in
REVERSE request order (the success list is back-filled into the shared
array and sent in increasing memory order). -/
theorem c1_amended_backbone_reverse_order {T : Type} (env : MlrEnv T)
    (msg : MlrMessage) (t0 : T) (l : List Address) (t2 : Nat)
    (h : (handleMulticastListenerRegistration env msg t0).backbone = some (l, t2)) :
    l = (mlrSuccesses env msg t0).reverse := by
  rw [handleMlr_backbone_spec] at h
  by_cases hs : mlrSuccesses env msg t0 = []
  · rw [if_pos hs] at h
    cases h
  · rw [if_neg hs] at h
    simp only [Option.some.injEq, Prod.mk.injEq] at h
    exact h.1.symm

/-- C1 amended-claim witness at the two-address request. -/
theorem c1_amended_backbone_reverse_order_witness :
    (handleMulticastListenerRegistration mlrEnvAllOk mlrMsgTwoAddrs ()).backbone
      = some ([1, 0], 3600) ∧
    ([1, 0] : List Address) = (mlrSuccesses mlrEnvAllOk mlrMsgTwoAddrs ()).reverse :=
  ⟨by decide,
   c1_amended_backbone_reverse_order mlrEnvAllOk mlrMsgTwoAddrs () [1, 0] 3600 (by decide)⟩

/-- Index of the shared-array write one loop iteration performs at state
`s` on address `a` (non-zero timeout): the back-fill slot
`kIPv6AddressesNumMax - (successAddressNum + 1)` on success, the
front-fill slot `failedAddressNum` on failure. -/
def writeIndex {T : Type} (env : MlrEnv T) (expire : Nat) (s : LoopState T)
    (a : Address) : Nat :=
  match env.add s.table a expire with
  | (_, AddOutcome.ok) => kIPv6AddressesNumMax - (s.successNum + 1)
  | (_, AddOutcome.invalidArgs) => s.failedNum
  | (_, AddOutcome.noBufs) => s.failedNum

/-- C10: for a request whose address count passed validation, throughout
the per-address loop the failed and success counters sum to at most
`kIPv6AddressesNumMax`, the front-filled failed region never overlaps the
back-filled success region, every shared-array write index is in bounds,
and whenever the backbone send routine is called its address count lies
in `[kIPv6AddressesNumMin, kIPv6AddressesNumMax]`, so its
`OT_ASSERT` holds. -/
theorem c10_shared_buffer_safety {T : Type} (env : MlrEnv T) (msg : MlrMessage)
    (t0 : T) (len tmo : Nat)
    (hlen : len / addressSize ≤ kIPv6AddressesNumMax) :
    (∀ i, i ≤ (requestAddrs msg len).length →
      (((requestAddrs msg len).take i).foldl (step env tmo (env.now + tmo * 1000))
          (mlrInitState t0)).failedNum
        + (((requestAddrs msg len).take i).foldl (step env tmo (env.now + tmo * 1000))
          (mlrInitState t0)).successNum ≤ kIPv6AddressesNumMax ∧
      (((requestAddrs msg len).take i).foldl (step env tmo (env.now + tmo * 1000))
          (mlrInitState t0)).failedNum
        ≤ kIPv6AddressesNumMax
          - (((requestAddrs msg len).take i).foldl (step env tmo (env.now + tmo * 1000))
              (mlrInitState t0)).successNum) ∧
    (¬ tmo = 0 → ∀ i, ∀ hi : i < (requestAddrs msg len).length,
      writeIndex env (env.now + tmo * 1000)
        (((requestAddrs msg len).take i).foldl (step env tmo (env.now + tmo * 1000))
          (mlrInitState t0))
        ((requestAddrs msg len).get ⟨i, hi⟩) < kIPv6AddressesNumMax) ∧
    (∀ l t2, (mlrLoopResult env msg t0 len tmo).backbone = some (l, t2) →
      kIPv6AddressesNumMin ≤ l.length ∧ l.length ≤ kIPv6AddressesNumMax) := by
  have hreqlen : (requestAddrs msg len).length = len / addressSize := by
    simp [requestAddrs]
  have hcounts : ∀ i, i ≤ (requestAddrs msg len).length → ¬ tmo = 0 →
      (((requestAddrs msg len).take i).foldl (step env tmo (env.now + tmo * 1000))
          (mlrInitState t0)).failedNum
        + (((requestAddrs msg len).take i).foldl (step env tmo (env.now + tmo * 1000))
          (mlrInitState t0)).successNum = i := by
    intro i hi ht
    have htake : ((requestAddrs msg len).take i).length = i := by
      rw [List.length_take]
      omega
    obtain ⟨_, h2, h3, _, _, _, _⟩ :=
      foldl_step_spec env tmo (env.now + tmo * 1000) ht ((requestAddrs msg len).take i)
        (mlrInitState t0) (by simp [mlrInitState])
        (by simp [mlrInitState, htake]; omega)
    rw [h2, h3]
    have hrl := runAdds_length env.add (env.now + tmo * 1000) ((mlrInitState t0) : LoopState T).table
      ((requestAddrs msg len).take i)
    have hfs := failAddrs_length_add_succAddrs_length
      (runAdds env.add (env.now + tmo * 1000)
        ((mlrInitState t0) : LoopState T).table ((requestAddrs msg len).take i)).1
    simp only [mlrInitState] at *
    omega
  have hkpos : 0 < kIPv6AddressesNumMax := by decide
  refine ⟨?_, ?_, ?_⟩
  · intro i hi
    by_cases ht : tmo = 0
    · subst ht
      rw [foldl_step_zero_spec]
      simp [mlrInitState]
    · have := hcounts i hi ht
      omega
  · intro ht i hi
    have hieq := hcounts i (Nat.le_of_lt hi) ht
    unfold writeIndex
    rcases hadd : env.add (((requestAddrs msg len).take i).foldl
        (step env tmo (env.now + tmo * 1000)) (mlrInitState t0)).table
        ((requestAddrs msg len).get ⟨i, hi⟩) (env.now + tmo * 1000) with ⟨t', o⟩
    have hile : i < kIPv6AddressesNumMax := by
      rw [hreqlen] at hi
      omega
    cases o <;> simp [hadd] <;> omega
  · intro l t2 hb
    by_cases ht : tmo = 0
    · subst ht
      rw [mlrLoopResult_backbone_zero] at hb
      cases hb
    · obtain ⟨_, b2, _⟩ := mlrLoopResult_spec env msg t0 len tmo ht hlen
      rw [b2] at hb
      by_cases hs : succAddrs
          (runAdds env.add (env.now + tmo * 1000) t0 (requestAddrs msg len)).1 = []
      · rw [if_pos hs] at hb
        cases hb
      · rw [if_neg hs] at hb
        simp only [Option.some.injEq, Prod.mk.injEq] at hb
        have hlpos : 0 < (succAddrs
            (runAdds env.add (env.now + tmo * 1000) t0 (requestAddrs msg len)).1).length :=
          List.length_pos.mpr hs
        have hrl := runAdds_length env.add (env.now + tmo * 1000) t0 (requestAddrs msg len)
        have hfs := failAddrs_length_add_succAddrs_length
          (runAdds env.add (env.now + tmo * 1000) t0 (requestAddrs msg len)).1
        have hlength : l.length = (succAddrs
            (runAdds env.add (env.now + tmo * 1000) t0 (requestAddrs msg len)).1).length := by
          rw [← hb.1]
          simp
        have hmin1 : kIPv6AddressesNumMin = 1 := rfl
        rw [hreqlen] at hrl
        constructor
        · omega
        · omega

/-- C10 witness: at a concrete two-address request with one failing and
one succeeding `Add`, the counter bound at loop exit and the backbone
count bound hold. -/
theorem c10_shared_buffer_safety_witness :
    (32 / addressSize ≤ kIPv6AddressesNumMax) ∧
    ((((requestAddrs mlrMsgTwoAddrs 32).take 2).foldl
        (step mlrEnvAllOk 3600 (mlrEnvAllOk.now + 3600 * 1000))
        (mlrInitState ())).failedNum
      + (((requestAddrs mlrMsgTwoAddrs 32).take 2).foldl
        (step mlrEnvAllOk 3600 (mlrEnvAllOk.now + 3600 * 1000))
        (mlrInitState ())).successNum ≤ kIPv6AddressesNumMax) ∧
    (kIPv6AddressesNumMin ≤ ([1, 0] : List Address).length ∧
     ([1, 0] : List Address).length ≤ kIPv6AddressesNumMax) :=
  ⟨by decide,
   ((c10_shared_buffer_safety mlrEnvAllOk mlrMsgTwoAddrs () 32 3600 (by decide)).1
      2 (by decide)).1,
   (c10_shared_buffer_safety mlrEnvAllOk mlrMsgTwoAddrs () 32 3600 (by decide)).2.2
     [1, 0] 3600 (by decide)⟩

end BackboneRouter
